import Mathlib

/-!
Shallow embedding of two Tensorforce source files:

* `tensorforce/agents/dpg.py` — the `DeterministicPolicyGradient` agent
  constructor, which unconditionally raises `TensorforceError('Temporarily
  broken.')` before its deprecation checks and before the mapping of flat
  keyword arguments into nested sub-specification dictionaries.
* `tensorforce/core/policies/state_value.py` — the abstract `StateValue`
  module declaring typed input/output signatures for its `state_value` and
  `past_horizon` tensor functions.

Modelling conventions: Python values that are merely stored and copied
through are represented by a generic `PyVal` inductive; Python float
literals (`1e-3`, `0.99`, `0.0`, `1.0`) are represented as exact rationals,
which is faithful here because the code performs no floating-point
arithmetic on them — they are only copied into specification records.
Python `None`-or-value optional arguments are `Option PyVal`; the presence
or absence of a dictionary key (`update['frequency']`, `update['start']`)
is an `Option` field. A constructor that can `raise` is a function into
`Except TFError _`. The `**kwargs` catch-all is not modelled: it is passed
through to the superclass untouched and no claim concerns it.
-/

namespace Tensorforce

/-- Generic model of a Python value as it flows through the configuration
plumbing: `vnone` is Python `None`; `vopaque` stands for any other object
(nested specification dictionaries, parameter objects, ...) that the code
only stores and never inspects. -/
inductive PyVal where
  | vnone
  | vbool (b : Bool)
  | vint (z : Int)
  | vrat (q : ℚ)
  | vstr (s : String)
  | vopaque (id : Nat)
deriving DecidableEq, Repr

/-- Model of `TensorforceError`: either a plain error with a message
(`TensorforceError(message=...)`) or a deprecation error
(`TensorforceError.deprecated(name=..., argument=..., replacement=...)`). -/
inductive TFError where
  | message (msg : String)
  | deprecated (name argument replacement : String)
deriving DecidableEq, Repr

/-- The keyword arguments of `DeterministicPolicyGradient.__init__`
(dpg.py lines 129-153), in source order. -/
structure Args where
  states : PyVal
  actions : PyVal
  memory : PyVal
  batch_size : PyVal
  max_episode_timesteps : Option PyVal
  network : PyVal
  use_beta_distribution : Bool
  update_frequency : PyVal
  start_updating : Option PyVal
  learning_rate : ℚ
  horizon : PyVal
  discount : ℚ
  predict_terminal_values : Bool
  critic : PyVal
  critic_optimizer : PyVal
  preprocessing : PyVal
  exploration : ℚ
  variable_noise : ℚ
  l2_regularization : ℚ
  entropy_regularization : ℚ
  parallel_interactions : PyVal
  config : Option PyVal
  saver : Option PyVal
  summarizer : Option PyVal
  recorder : Option PyVal
  estimate_terminal : Option PyVal
  critic_network : Option PyVal
deriving DecidableEq, Repr

/-- The defaults of the keyword arguments as written in the signature of
`__init__` (dpg.py lines 129-153); `states`, `actions`, `memory` and
`batch_size` are required and have no default. -/
def defaultArgs (states actions memory batch_size : PyVal) : Args :=
  { states := states
    actions := actions
    memory := memory
    batch_size := batch_size
    max_episode_timesteps := none
    network := PyVal.vstr "auto"
    use_beta_distribution := true
    update_frequency := PyVal.vstr "batch_size"
    start_updating := none
    learning_rate := 1/1000
    horizon := PyVal.vint 1
    discount := 99/100
    predict_terminal_values := false
    critic := PyVal.vstr "auto"
    critic_optimizer := PyVal.vrat 1
    preprocessing := PyVal.vstr "linear_normalization"
    exploration := 0
    variable_noise := 0
    l2_regularization := 0
    entropy_regularization := 0
    parallel_interactions := PyVal.vint 1
    config := none
    saver := none
    summarizer := none
    recorder := none
    estimate_terminal := none
    critic_network := none }

/-- `policy = dict(type=..., network=..., temperature=..., use_beta_distribution=...)`. -/
structure PolicySpec where
  type : String
  network : PyVal
  temperature : ℚ
  use_beta_distribution : Bool
deriving DecidableEq, Repr

/-- `memory = dict(type='replay', capacity=memory)`. -/
structure MemorySpec where
  type : String
  capacity : PyVal
deriving DecidableEq, Repr

/-- The `update` dictionary: `frequency`/`start` are `Option` because the
source only inserts those keys conditionally (dpg.py lines 188-192). -/
structure UpdateSpec where
  unit : String
  batch_size : PyVal
  frequency : Option PyVal
  start : Option PyVal
deriving DecidableEq, Repr

/-- `optimizer = dict(type='adam', learning_rate=learning_rate)`. -/
structure OptimizerSpec where
  type : String
  learning_rate : ℚ
deriving DecidableEq, Repr

/-- The `reward_estimation` dictionary (dpg.py lines 197-201). -/
structure RewardEstimationSpec where
  horizon : PyVal
  discount : ℚ
  predict_horizon_values : String
  estimate_advantage : Bool
  predict_action_values : Bool
  predict_terminal_values : Bool
deriving DecidableEq, Repr

/-- `baseline = dict(type='parametrized_distributions', network=critic)`. -/
structure BaselineSpec where
  type : String
  network : PyVal
deriving DecidableEq, Repr

/-- `baseline_objective = dict(type='value', value='action')`. -/
structure BaselineObjectiveSpec where
  type : String
  value : String
deriving DecidableEq, Repr

/-- The nested specification fields assembled by `__init__` (dpg.py lines
165-205): the `self.spec` ordered dictionary plus the sub-specifications
handed to the `TensorforceAgent` superclass constructor. -/
structure DPGSpec where
  spec : List (String × PyVal)
  policy : PolicySpec
  memory : MemorySpec
  update : UpdateSpec
  optimizer : OptimizerSpec
  objective : String
  reward_estimation : RewardEstimationSpec
  baseline : BaselineSpec
  baseline_optimizer : PyVal
  baseline_objective : BaselineObjectiveSpec
deriving DecidableEq, Repr

/-- Injection of an optional Python value: an absent value is `None`. -/
def optV (o : Option PyVal) : PyVal := o.getD PyVal.vnone

/-- The argument-to-specification mapping of
`DeterministicPolicyGradient.__init__` (dpg.py lines 165-205), embedded
verbatim: `self.spec` collects every argument in order; `policy`, `memory`,
`update`, `optimizer`, `objective`, `reward_estimation`, `baseline`,
`baseline_optimizer` and `baseline_objective` are built exactly as in the
source, including the two conditional key insertions into `update`. -/
def buildSpec (a : Args) : DPGSpec :=
  { spec := [
      ("agent", PyVal.vstr "dpg"),
      ("states", a.states), ("actions", a.actions),
      ("memory", a.memory), ("batch_size", a.batch_size),
      ("max_episode_timesteps", optV a.max_episode_timesteps),
      ("network", a.network),
      ("use_beta_distribution", PyVal.vbool a.use_beta_distribution),
      ("update_frequency", a.update_frequency),
      ("start_updating", optV a.start_updating),
      ("learning_rate", PyVal.vrat a.learning_rate),
      ("horizon", a.horizon), ("discount", PyVal.vrat a.discount),
      ("predict_terminal_values", PyVal.vbool a.predict_terminal_values),
      ("critic", a.critic), ("critic_optimizer", a.critic_optimizer),
      ("preprocessing", a.preprocessing),
      ("exploration", PyVal.vrat a.exploration),
      ("variable_noise", PyVal.vrat a.variable_noise),
      ("l2_regularization", PyVal.vrat a.l2_regularization),
      ("entropy_regularization", PyVal.vrat a.entropy_regularization),
      ("parallel_interactions", a.parallel_interactions),
      ("config", optV a.config), ("saver", optV a.saver),
      ("summarizer", optV a.summarizer), ("recorder", optV a.recorder)]
    policy := { type := "parametrized_distributions", network := a.network,
                temperature := 0, use_beta_distribution := a.use_beta_distribution }
    memory := { type := "replay", capacity := a.memory }
    update := { unit := "timesteps", batch_size := a.batch_size,
                frequency := if a.update_frequency ≠ PyVal.vstr "batch_size"
                             then some a.update_frequency else none,
                start := a.start_updating }
    optimizer := { type := "adam", learning_rate := a.learning_rate }
    objective := "deterministic_policy_gradient"
    reward_estimation := { horizon := a.horizon, discount := a.discount,
                           predict_horizon_values := "late",
                           estimate_advantage := false,
                           predict_action_values := true,
                           predict_terminal_values := a.predict_terminal_values }
    baseline := { type := "parametrized_distributions", network := a.critic }
    baseline_optimizer := a.critic_optimizer
    baseline_objective := { type := "value", value := "action" } }

/-- The body of `__init__` from line 156 on, i.e. everything after the
unconditional `raise`: first the `estimate_terminal` deprecation check,
then the `critic_network` deprecation check, then the mapping into the
nested specifications (dpg.py lines 156-205). -/
def dpgInitAfterGuard (a : Args) : Except TFError DPGSpec :=
  if a.estimate_terminal ≠ none then
    Except.error (TFError.deprecated "DPG" "estimate_terminal" "predict_terminal_values")
  else if a.critic_network ≠ none then
    Except.error (TFError.deprecated "DPG" "critic_network" "critic")
  else
    Except.ok (buildSpec a)

/-- `DeterministicPolicyGradient.__init__` as a whole (dpg.py lines
129-219): its first statement is
`raise TensorforceError(message='Temporarily broken.')` (line 155), after
which the rest of the body — `dpgInitAfterGuard` — is dead code, bound
after an always-erroring step exactly as it stands after the `raise` in
the source. -/
def dpgInit (a : Args) : Except TFError DPGSpec :=
  (Except.error (TFError.message "Temporarily broken.") : Except TFError PUnit) >>= fun _ =>
    dpgInitAfterGuard a

/-- Whether a run of the constructor surfaced a deprecation error. -/
def initRaisesDeprecation (a : Args) : Bool :=
  match dpgInit a with
  | Except.error (TFError.deprecated _ _ _) => true
  | _ => false

/-- Whether a run of the constructor produced a specification, i.e.
reached and completed the argument-to-specification mapping. -/
def initProducesSpec (a : Args) : Bool :=
  match dpgInit a with
  | Except.ok _ => true
  | _ => false

/-- A concrete, fully defaulted argument record used as test input. -/
def witnessArgs : Args :=
  defaultArgs PyVal.vnone PyVal.vnone (PyVal.vint 100) (PyVal.vint 10)

/-- Concrete arguments supplying the deprecated `estimate_terminal`. -/
def depArgs : Args :=
  { witnessArgs with estimate_terminal := some (PyVal.vbool true) }

end Tensorforce

namespace Tensorforce

/-! ### state_value.py -/

/-- Tensor element types (`'bool' | 'int' | 'float'`). -/
inductive TType where
  | bool
  | int
  | float
deriving DecidableEq, Repr

/-- Model of `TensorSpec(type=..., shape=...)`: a type plus a shape. -/
structure TensorSpec where
  type : TType
  shape : List Nat
deriving DecidableEq, Repr

/-- Model of a single tensor signature, a `TensorSpec`-like record of
type, shape and batching flag, as produced by `TensorSpec.signature`. -/
structure TensorSig where
  type : TType
  shape : List Nat
  batched : Bool
deriving DecidableEq, Repr

/-- `TensorSpec.signature(batched=...)`: attach the batching flag. -/
def TensorSpec.signature (s : TensorSpec) (batched : Bool) : TensorSig :=
  { type := s.type, shape := s.shape, batched := batched }

/-- A collection of named tensor specs (`states_spec`, `internals_spec`,
`auxiliaries_spec` are such collections). -/
def TensorsSpec : Type := List (String × TensorSpec)

/-- `.signature(batched=...)` on a spec collection: every member tensor
spec gets the same batching flag. -/
def TensorsSpec.signature (d : TensorsSpec) (batched : Bool) :
    List (String × TensorSig) :=
  d.map fun p => (p.1, TensorSpec.signature p.2 batched)

/-- A value of a `SignatureDict`: either a single tensor signature or a
group of named tensor signatures. -/
inductive SigVal where
  | single (t : TensorSig)
  | group (es : List (String × TensorSig))
deriving DecidableEq, Repr

/-- A `SignatureDict`: an ordered mapping from names to signature values. -/
def SignatureDict : Type := List (String × SigVal)

/-- Whether every tensor signature inside a signature value is batched. -/
def SigVal.allBatched : SigVal → Bool
  | SigVal.single t => t.batched
  | SigVal.group es => es.all fun p => p.2.batched

/-- Whether every tensor signature in a signature dictionary is batched. -/
def SignatureDict.allBatched (d : SignatureDict) : Bool :=
  d.all fun p => SigVal.allBatched p.2

/-- The state of a `StateValue` module: the specs stored by `__init__`
(state_value.py lines 43-45) together with `internals_spec`, which the
module inherits from its superclass. -/
structure StateValue where
  states_spec : TensorsSpec
  auxiliaries_spec : TensorsSpec
  actions_spec : TensorsSpec
  internals_spec : TensorsSpec

/-- `StateValue.input_signature` (state_value.py lines 47-60): empty for
`past_horizon`; batched states, an int horizons tensor of shape `(2,)`,
batched internals and batched auxiliaries for `state_value`; any other
function name defers to the superclass (`none` here, superclass not in
scope). -/
def StateValue.input_signature (sv : StateValue) (function : String) :
    Option SignatureDict :=
  if function = "past_horizon" then
    some []
  else if function = "state_value" then
    some [
      ("states", SigVal.group (TensorsSpec.signature sv.states_spec true)),
      ("horizons", SigVal.single (TensorSpec.signature { type := TType.int, shape := [2] } true)),
      ("internals", SigVal.group (TensorsSpec.signature sv.internals_spec true)),
      ("auxiliaries", SigVal.group (TensorsSpec.signature sv.auxiliaries_spec true))]
  else
    none

/-- `StateValue.output_signature` (state_value.py lines 62-74): a single
non-batched scalar int for `past_horizon`; a single batched scalar float
for `state_value`; any other function name defers to the superclass
(`none` here, superclass not in scope). -/
def StateValue.output_signature (sv : StateValue) (function : String) :
    Option SignatureDict :=
  if function = "past_horizon" then
    some [("singleton", SigVal.single (TensorSpec.signature { type := TType.int, shape := [] } false))]
  else if function = "state_value" then
    some [("singleton", SigVal.single (TensorSpec.signature { type := TType.float, shape := [] } true))]
  else
    none

end Tensorforce

namespace Tensorforce

/-! ### Theorems for the claims -/

/-- Claim C1: constructing the `DeterministicPolicyGradient` agent, for
every combination of arguments, unconditionally fails with the
`TensorforceError` whose message is 'Temporarily broken.', before any
other effect: the model returns that error without building any
specification. -/
theorem dpg_init_temporarily_broken (a : Args) :
    dpgInit a = Except.error (TFError.message "Temporarily broken.") := rfl

/-- Claim C2, counterexample: at the concrete argument record `depArgs`,
which supplies the deprecated `estimate_terminal` argument, construction
fails with the 'Temporarily broken.' error and no deprecation error is
raised — refuting the claim that construction with a deprecated argument
fails with the documented deprecation error. -/
theorem dpg_deprecated_arg_counterexample :
    depArgs.estimate_terminal = some (PyVal.vbool true) ∧
    dpgInit depArgs = Except.error (TFError.message "Temporarily broken.") ∧
    initRaisesDeprecation depArgs = false :=
  ⟨rfl, rfl, rfl⟩

/-- Claim C2, amended: for every call supplying a deprecated argument
(`estimate_terminal` or `critic_network` not `None`), construction always
fails before any other side effect, but with the 'Temporarily broken.'
guard error; the deprecation branches immediately after the guard, were
they reached, would raise one of the documented deprecation errors naming
the deprecated argument and its replacement. -/
theorem dpg_deprecated_arg_guard_first (a : Args)
    (h : a.estimate_terminal ≠ none ∨ a.critic_network ≠ none) :
    dpgInit a = Except.error (TFError.message "Temporarily broken.") ∧
    (dpgInitAfterGuard a =
        Except.error (TFError.deprecated "DPG" "estimate_terminal" "predict_terminal_values") ∨
      dpgInitAfterGuard a =
        Except.error (TFError.deprecated "DPG" "critic_network" "critic")) := by
  refine ⟨rfl, ?_⟩
  by_cases he : a.estimate_terminal = none
  · right
    rcases h with h | h
    · exact absurd he h
    · simp [dpgInitAfterGuard, he, h]
  · left
    simp [dpgInitAfterGuard, he]

/-- Witness for the amended Claim C2 at the concrete record `depArgs`. -/
theorem dpg_deprecated_arg_guard_first_witness :
    dpgInit depArgs = Except.error (TFError.message "Temporarily broken.") ∧
    (dpgInitAfterGuard depArgs =
        Except.error (TFError.deprecated "DPG" "estimate_terminal" "predict_terminal_values") ∨
      dpgInitAfterGuard depArgs =
        Except.error (TFError.deprecated "DPG" "critic_network" "critic")) :=
  dpg_deprecated_arg_guard_first depArgs (Or.inl (by simp [depArgs]))

/-- Claim C3: the deprecation-check branches of `__init__` are
unreachable — for every combination of arguments, including ones that set
`estimate_terminal` or `critic_network`, the constructor returns the
'Temporarily broken.' error, never surfaces a deprecation error, and
never produces a specification (so no statement after line 155 takes
effect). -/
theorem dpg_deprecation_unreachable (a : Args) :
    dpgInit a = Except.error (TFError.message "Temporarily broken.") ∧
    initRaisesDeprecation a = false ∧
    initProducesSpec a = false :=
  ⟨rfl, rfl, rfl⟩

/-- Claim C4: in the argument-to-specification mapping, when
`update_frequency` is left at its default value `'batch_size'`, the
resulting `update` specification has no `frequency` entry (so the
frequency defaults downstream to `batch_size`, one update per batch) and
its unit is `'timesteps'`, the unit under which a frequency of
`batch_size` means one update per batch. -/
theorem dpg_update_default_frequency (a : Args)
    (h : a.update_frequency = PyVal.vstr "batch_size") :
    (buildSpec a).update.frequency = none ∧
    (buildSpec a).update.unit = "timesteps" ∧
    (buildSpec a).update.batch_size = a.batch_size := by
  refine ⟨?_, rfl, rfl⟩
  simp [buildSpec, h]

/-- Witness for Claim C4 at the fully defaulted record `witnessArgs`. -/
theorem dpg_update_default_frequency_witness :
    (buildSpec witnessArgs).update.frequency = none ∧
    (buildSpec witnessArgs).update.unit = "timesteps" ∧
    (buildSpec witnessArgs).update.batch_size = witnessArgs.batch_size :=
  dpg_update_default_frequency witnessArgs rfl

/-- Claim C5: for every combination of constructor arguments, the
optimizer sub-specification's type is fixed to `'adam'` and the objective
is fixed to `'deterministic_policy_gradient'`; no argument can change
these two values. -/
theorem dpg_optimizer_objective_fixed (a : Args) :
    (buildSpec a).optimizer.type = "adam" ∧
    (buildSpec a).objective = "deterministic_policy_gradient" :=
  ⟨rfl, rfl⟩

/-- Claim C6: for every value of `horizon`, `discount` and
`predict_terminal_values`, the `reward_estimation` sub-specification
copies these three values through unchanged and fixes
`predict_horizon_values = 'late'`, `estimate_advantage = False` and
`predict_action_values = True`. -/
theorem dpg_reward_estimation_mapping (a : Args) :
    (buildSpec a).reward_estimation =
      { horizon := a.horizon, discount := a.discount,
        predict_horizon_values := "late", estimate_advantage := false,
        predict_action_values := true,
        predict_terminal_values := a.predict_terminal_values } := rfl

/-- Claim C7: the documented defaults hold — an omitted `learning_rate`
equals `1e-3` and an omitted `discount` equals `0.99`, and these default
values are the ones placed into the `optimizer` and `reward_estimation`
sub-specifications respectively. -/
theorem dpg_documented_defaults (s ac m b : PyVal) :
    (defaultArgs s ac m b).learning_rate = 1/1000 ∧
    (defaultArgs s ac m b).discount = 99/100 ∧
    (buildSpec (defaultArgs s ac m b)).optimizer.learning_rate = 1/1000 ∧
    (buildSpec (defaultArgs s ac m b)).reward_estimation.discount = 99/100 :=
  ⟨rfl, rfl, rfl, rfl⟩

/-- Every tensor signature produced from a spec collection with
`batched = true` carries the batched flag. -/
theorem tensorsSpec_signature_allBatched (d : TensorsSpec) :
    (TensorsSpec.signature d true).all (fun p => p.2.batched) = true := by
  induction d with
  | nil => rfl
  | cons x t ih => simpa [TensorsSpec.signature, TensorSpec.signature] using ih

/-- Claim C8: `StateValue` declares the `state_value` contract as typed
signatures — the input signature is batched state tensors, a batched
two-element int horizons tensor of shape `(2,)`, batched internals and
batched auxiliaries (every tensor in it batched), and the output
signature is a single batched scalar float of shape `()`. -/
theorem state_value_signatures (sv : StateValue) :
    StateValue.input_signature sv "state_value" = some [
      ("states", SigVal.group (TensorsSpec.signature sv.states_spec true)),
      ("horizons", SigVal.single { type := TType.int, shape := [2], batched := true }),
      ("internals", SigVal.group (TensorsSpec.signature sv.internals_spec true)),
      ("auxiliaries", SigVal.group (TensorsSpec.signature sv.auxiliaries_spec true))] ∧
    StateValue.output_signature sv "state_value" =
      some [("singleton", SigVal.single { type := TType.float, shape := [], batched := true })] ∧
    SignatureDict.allBatched ((StateValue.input_signature sv "state_value").getD []) = true := by
  refine ⟨?_, ?_, ?_⟩
  · simp [StateValue.input_signature, TensorSpec.signature]
  · simp [StateValue.output_signature, TensorSpec.signature]
  · simp [StateValue.input_signature, SignatureDict.allBatched, SigVal.allBatched,
      tensorsSpec_signature_allBatched, TensorSpec.signature]

/-- Claim C9: `StateValue` declares the `past_horizon` contract as typed
signatures — the input signature is empty and the output signature is a
single non-batched scalar int of shape `()`. -/
theorem past_horizon_signatures (sv : StateValue) :
    StateValue.input_signature sv "past_horizon" = some [] ∧
    StateValue.output_signature sv "past_horizon" =
      some [("singleton", SigVal.single { type := TType.int, shape := [], batched := false })] := by
  constructor
  · simp [StateValue.input_signature]
  · simp [StateValue.output_signature, TensorSpec.signature]

/-- Claim C10: the mapping from flat constructor arguments to the nested
specification fields is total and deterministic — for every combination
of documented arguments (deprecated arguments left at `None`) the
post-guard body produces the nested specifications without failing, and
identical argument records always produce identical specifications. -/
theorem dpg_mapping_total_deterministic :
    (∀ a : Args, a.estimate_terminal = none → a.critic_network = none →
      dpgInitAfterGuard a = Except.ok (buildSpec a)) ∧
    (∀ a b : Args, a = b → buildSpec a = buildSpec b) := by
  constructor
  · intro a h1 h2
    simp [dpgInitAfterGuard, h1, h2]
  · intro a b h
    rw [h]

/-- Witness for Claim C10 at the fully defaulted record `witnessArgs`. -/
theorem dpg_mapping_total_deterministic_witness :
    dpgInitAfterGuard witnessArgs = Except.ok (buildSpec witnessArgs) ∧
    buildSpec witnessArgs = buildSpec witnessArgs :=
  ⟨dpg_mapping_total_deterministic.1 witnessArgs rfl rfl,
   dpg_mapping_total_deterministic.2 witnessArgs witnessArgs rfl⟩

end Tensorforce
